import Mathlib

/-!
Shallow embedding of src/gen_filecmp.py (repository busterbeam/generator-filecmp)
and proofs about the claims of its specification.

Conventions of the embedding:
- Paths are strings; the filesystem is a structure FS mapping a path to an
  optional stat result (none means os.stat raises OSError) and to the byte
  content of the file (a list of naturals, used by the open/read in _do_cmp).
- Python exceptions are modelled with Except PyError; the module-level cache
  dict is threaded explicitly as a value of type Cache.
- st_mode, st_size are naturals; st_mtime is an integer (only equality of
  mtimes matters to the code). StatResult also carries st_uid and st_gid so
  that "metadata the signature ignores" is representable.
-/

set_option linter.unusedVariables false

namespace GenFilecmp

/-- Python runtime errors that the embedded functions can raise: OSError from
os.stat or open, NameError from evaluating the unbound name metadata_2 at
line 56 of gen_filecmp.py, TypeError from item assignment on a tuple at
line 97. -/
inductive PyError where
  | osError
  | nameError
  | typeError
  deriving DecidableEq

/-- The fields of os.stat_result that the module reads (st_mode, st_size,
st_mtime), plus ownership fields it does not read, so that claims about
signature-irrelevant metadata can be stated. -/
structure StatResult where
  st_mode : Nat
  st_size : Nat
  st_mtime : Int
  st_uid : Nat
  st_gid : Nat
  deriving DecidableEq

/-- The filesystem as the module observes it: stat? p is the result of
os.stat(p) (none = OSError raised), content p is the byte content read by
the rb-mode open call in _do_cmp. -/
structure FS where
  stat? : String → Option StatResult
  content : String → List Nat

/-- stat.S_IFMT: mask the file-type bits of st_mode (0o170000 = 61440). -/
def S_IFMT (mode : Nat) : Nat := mode &&& 61440

/-- stat.S_IFREG (0o100000). -/
def S_IFREG : Nat := 32768

/-- stat.S_IFDIR (0o040000). -/
def S_IFDIR : Nat := 16384

/-- stat.S_ISREG. -/
def S_ISREG (mode : Nat) : Bool := S_IFMT mode == S_IFREG

/-- stat.S_ISDIR. -/
def S_ISDIR (mode : Nat) : Bool := S_IFMT mode == S_IFDIR

/-- BUFSIZE = 8*1024 (line 23). -/
def BUFSIZE : Nat := 8 * 1024

/-- _metadata (lines 70-71): the stat signature
(S_IFMT(st_mode), st_size, st_mtime). -/
def _metadata (metadata : StatResult) : Nat × Nat × Int :=
  (S_IFMT metadata.st_mode, metadata.st_size, metadata.st_mtime)

/-- The module-level _cache dict (line 22), keyed by the ordered pair of file
names, modelled as an association list (cmp only ever inserts a key on a
lookup miss, so keys stay distinct). -/
abbrev Cache := List ((String × String) × Bool)

/-- Dict lookup _cache.get(compare_tuple) (line 63). -/
def cacheGet (cache : Cache) (k : String × String) : Option Bool :=
  match cache.find? (fun e => e.1 == k) with
  | some e => some e.2
  | none => none

/-- clear_cache (lines 28-30): the cache becomes empty. -/
def clear_cache : Cache := []

/-- cmp (lines 32-68). Lines 54-55 stat both paths (propagating OSError).
Line 56 is `if metadata_0[0] != S_IFREG or metadata_2[0] != S_IFREG:`;
the name metadata_2 is bound nowhere in the module, so when the left
disjunct is false (the first path IS a regular file) Python evaluates
metadata_2 and raises NameError. Consequently lines 58-68 (shallow fast
path, size check, cache lookup, _do_cmp call and cache insertion) are
unreachable, and cmp returns only False (first path not regular) or raises. -/
def cmp (fs : FS) (filename_0 filename_1 : String) (shallow : Bool)
    (cache : Cache) : Except PyError (Bool × Cache) :=
  match fs.stat? filename_0 with
  | none => .error .osError
  | some stat_0 =>
    match fs.stat? filename_1 with
    | none => .error .osError
    | some stat_1 =>
      let metadata_0 := _metadata stat_0
      let metadata_1 := _metadata stat_1
      if metadata_0.1 ≠ S_IFREG then .ok (false, cache)
      else .error .nameError

/-- The loop of _do_cmp (lines 73-80) expressed on the byte contents of the
two files: fp.read(BUFSIZE) yields the next take BUFSIZE of the remaining
bytes; the loop returns False on the first differing chunk pair and True when
the chunk of the first file is empty (both chunks then being equal and
empty). -/
def _do_cmp (bytes_1 bytes_2 : List Nat) : Bool :=
  if bytes_1.take BUFSIZE ≠ bytes_2.take BUFSIZE then false
  else if h : bytes_1.take BUFSIZE = [] then true
  else _do_cmp (bytes_1.drop BUFSIZE) (bytes_2.drop BUFSIZE)
termination_by bytes_1.length
decreasing_by
  have hne : bytes_1 ≠ [] := by
    intro hnil
    rw [hnil] at h
    simp at h
  have hpos : 0 < bytes_1.length := List.length_pos.mpr hne
  have hb : 0 < BUFSIZE := by decide
  rw [List.length_drop]
  omega

/-- os.path.join for the two-argument uses in this module. -/
def join (a x : String) : String := a ++ "/" ++ x

/-- _cmp (lines 107-111): index 0 for equal, 1 for different, 2 on OSError.
`not abs(cmp(a, b, shallow))` maps True from cmp to index 0 and False to 1;
`except OSError` catches only OSError, so the NameError raised inside cmp
propagates. -/
def _cmp (fs : FS) (a b : String) (shallow : Bool) (cache : Cache) :
    Except PyError (Nat × Cache) :=
  match cmp fs a b shallow cache with
  | .ok (outcome, cache_1) => .ok (if outcome then 0 else 1, cache_1)
  | .error PyError.osError => .ok (2, cache)
  | .error e => .error e

/-- cmpfiles (lines 82-98). For each common name x the body executes
`result = (None, None, None)` and then `result[_cmp(join(a, x), join(b, x),
shallow)] = x`: Python evaluates the index expression (so an uncaught error
from _cmp propagates first) and then calls tuple.__setitem__, which always
raises TypeError because result is a tuple. The generator therefore yields
nothing and raises on its first element; only an empty common list produces
a (empty) result. -/
def cmpfiles (fs : FS) (a b : String) (common : List String) (shallow : Bool)
    (cache : Cache) :
    Except PyError (List (Option String × Option String × Option String) × Cache) :=
  match common with
  | [] => .ok ([], cache)
  | x :: _ =>
    match _cmp fs (join a x) (join b x) shallow cache with
    | .error e => .error e
    | .ok _ => .error PyError.typeError

/-- The Python values that occur in common_names (line 141): the elements of
the tuple `a` are strings, while `b` is itself a 2-tuple of strings. -/
inductive PyVal where
  | str : String → PyVal
  | tup : String → String → PyVal
  deriving DecidableEq

/-- Python membership `b in a` for a 2-tuple a = (a0, a1): equality of b
against each element (a cross-type == between a tuple and a string is
always False, which this computes rather than assumes). -/
def pyIn (b a0 a1 : PyVal) : Bool := b == a0 || b == a1

/-- common_names (lines 139-141):
`for a, b in zip(zip(map(normcase, l), l), zip(map(normcase, r), r)):
yield a[b in a]`. The two listings are zipped positionally; a is the pair
(normcase lx, lx), b the pair (normcase rx, rx); indexing a by the boolean
`b in a` yields a[0] = normcase lx when the membership test is false and
a[1] = lx when it is true. -/
def common_names (normcase : String → String) (l r : List String) :
    List String :=
  (List.zip (List.zip (l.map normcase) l) (List.zip (r.map normcase) r)).map
    (fun ab =>
      if pyIn (PyVal.tup ab.2.1 ab.2.2) (PyVal.str ab.1.1) (PyVal.str ab.1.2)
      then ab.1.2 else ab.1.1)

/-- Python iteration over a string: its characters, each a 1-character
string. common_dirs, common_files and common_funny pass the same argument
both to common_names (which iterates it) and to join (which uses it as a
path), so the argument must be a string and common_names receives its
characters. -/
def pyIter (s : String) : List String := s.data.map (fun c => String.mk [c])

/-- os.stat as an Except computation (OSError when stat? is none). -/
def statExc (fs : FS) (p : String) : Except PyError StatResult :=
  match fs.stat? p with
  | none => .error .osError
  | some s => .ok s

/-- Loop of common_dirs (lines 143-146): keep name when
S_ISDIR(S_IFMT(stat(join(left, name)).st_mode)); only the LEFT side is
examined. -/
def common_dirs_go (fs : FS) (left : String) :
    List String → Except PyError (List String)
  | [] => .ok []
  | name :: rest => do
    let st ← statExc fs (join left name)
    let tail ← common_dirs_go fs left rest
    if S_ISDIR (S_IFMT st.st_mode) then .ok (name :: tail) else .ok tail

/-- common_dirs (lines 143-146). -/
def common_dirs (fs : FS) (normcase : String → String) (left right : String) :
    Except PyError (List String) :=
  common_dirs_go fs left (common_names normcase (pyIter left) (pyIter right))

/-- Loop of common_files (lines 148-151): keep name when
S_ISREG(S_IFMT(stat(join(left, name)).st_mode)); only the LEFT side is
examined. -/
def common_files_go (fs : FS) (left : String) :
    List String → Except PyError (List String)
  | [] => .ok []
  | name :: rest => do
    let st ← statExc fs (join left name)
    let tail ← common_files_go fs left rest
    if S_ISREG (S_IFMT st.st_mode) then .ok (name :: tail) else .ok tail

/-- common_files (lines 148-151). -/
def common_files (fs : FS) (normcase : String → String) (left right : String) :
    Except PyError (List String) :=
  common_files_go fs left (common_names normcase (pyIter left) (pyIter right))

/-- Loop of common_funny (lines 153-162): stat both sides, yield when the
types differ, elif when not S_ISREG(a_type), elif when not S_ISDIR(a_type). -/
def common_funny_go (fs : FS) (left right : String) :
    List String → Except PyError (List String)
  | [] => .ok []
  | name :: rest => do
    let a_stat ← statExc fs (join left name)
    let b_stat ← statExc fs (join right name)
    let a_type := S_IFMT a_stat.st_mode
    let b_type := S_IFMT b_stat.st_mode
    let tail ← common_funny_go fs left right rest
    if a_type ≠ b_type then .ok (name :: tail)
    else if !(S_ISREG a_type) then .ok (name :: tail)
    else if !(S_ISDIR a_type) then .ok (name :: tail)
    else .ok tail

/-- common_funny (lines 153-162). -/
def common_funny (fs : FS) (normcase : String → String) (left right : String) :
    Except PyError (List String) :=
  common_funny_go fs left right
    (common_names normcase (pyIter left) (pyIter right))

/-! Helper lemmas for the chunked comparison loop. -/

/-- A positive take that is empty forces the list to be empty. -/
theorem take_pos_eq_nil {k : Nat} (hk : 0 < k) {l : List Nat}
    (h : l.take k = []) : l = [] := by
  cases l with
  | nil => rfl
  | cons a t =>
    cases k with
    | zero => exact absurd hk (by simp)
    | succ m => simp at h

/-- A positive take of a nonempty list is nonempty. -/
theorem take_pos_ne_nil {k : Nat} (hk : 0 < k) {l : List Nat} (h : l ≠ []) :
    l.take k ≠ [] :=
  fun hc => h (take_pos_eq_nil hk hc)

/-- When the takes agree, list equality reduces to equality of the drops. -/
theorem eq_iff_drop_eq {k : Nat} {l1 l2 : List Nat}
    (h : l1.take k = l2.take k) : l1 = l2 ↔ l1.drop k = l2.drop k := by
  constructor
  · intro he; rw [he]
  · intro hd
    have e1 := List.take_append_drop k l1
    have e2 := List.take_append_drop k l2
    rw [← e1, ← e2, h, hd]

/-- The chunked loop decides equality of the full contents; induction on a
bound for the length of the first list. -/
theorem do_cmp_full_buffer_aux (n : Nat) :
    ∀ bytes_1 bytes_2 : List Nat, bytes_1.length ≤ n →
      _do_cmp bytes_1 bytes_2 = decide (bytes_1 = bytes_2) := by
  induction n with
  | zero =>
    intro b1 b2 hlen
    have hb1 : b1 = [] := by
      cases b1 with
      | nil => rfl
      | cons a t => simp at hlen
    subst hb1
    rw [_do_cmp]
    by_cases hb2 : b2 = []
    · subst hb2; simp
    · have h1 : (([] : List Nat).take BUFSIZE ≠ b2.take BUFSIZE) := by
        simp
        exact ⟨by decide, hb2⟩
      rw [if_pos h1]
      exact (decide_eq_false (fun hh => hb2 hh.symm)).symm
  | succ m ih =>
    intro b1 b2 hlen
    rw [_do_cmp]
    by_cases h1 : b1.take BUFSIZE ≠ b2.take BUFSIZE
    · rw [if_pos h1]
      have hne : b1 ≠ b2 := fun he => h1 (by rw [he])
      exact (decide_eq_false hne).symm
    · rw [if_neg h1]
      push_neg at h1
      by_cases h2 : b1.take BUFSIZE = []
      · rw [dif_pos h2]
        have hb1 : b1 = [] := take_pos_eq_nil (k := BUFSIZE) (by decide) h2
        have hb2 : b2 = [] :=
          take_pos_eq_nil (k := BUFSIZE) (by decide) (by rw [← h1, h2])
        subst hb1; subst hb2; simp
      · rw [dif_neg h2]
        have hb1ne : b1 ≠ [] := fun hh => h2 (by rw [hh]; simp)
        have hlt : (b1.drop BUFSIZE).length ≤ m := by
          rw [List.length_drop]
          have hp : 0 < b1.length := List.length_pos.mpr hb1ne
          have hB : 0 < BUFSIZE := by decide
          omega
        rw [ih (b1.drop BUFSIZE) (b2.drop BUFSIZE) hlt]
        exact decide_eq_decide.mpr (eq_iff_drop_eq h1).symm

/-! Concrete filesystems used by the per-claim counterexample theorems.
File modes use the usual values: 33188 = 0o100644 and 33261 = 0o100755
(regular files), 16877 = 0o040755 and 16832 = 0o040700 (directories). -/

/-- Filesystem with a single regular file p for the reflexivity claim. -/
def fsC1 : FS :=
  { stat? := fun p => if p = "p" then some ⟨33188, 3, 1000, 0, 0⟩ else none
    content := fun p => if p = "p" then [104, 105, 10] else [] }

/-- Filesystem where path f is a regular file and path d a directory. -/
def fsC6 : FS :=
  { stat? := fun p =>
      if p = "f" then some ⟨33188, 1, 10, 0, 0⟩
      else if p = "d" then some ⟨16877, 4096, 10, 0, 0⟩
      else none
    content := fun _ => [] }

/-- Filesystem with two regular files of identical stat signature
(same S_IFMT, size and mtime; permissions and ownership differ) but
different contents. -/
def fsC7 : FS :=
  { stat? := fun p =>
      if p = "a" then some ⟨33188, 2, 77, 0, 0⟩
      else if p = "b" then some ⟨33261, 2, 77, 1, 1⟩
      else none
    content := fun p =>
      if p = "a" then [0, 1] else if p = "b" then [2, 3] else [] }

/-- Filesystem on which every stat fails. -/
def fsC8 : FS := { stat? := fun _ => none, content := fun _ => [] }

/-- Filesystem for cmpfiles: A/x and B/x are regular files, A/y is absent. -/
def fsC5 : FS :=
  { stat? := fun p =>
      if p = "A/x" then some ⟨33188, 2, 50, 0, 0⟩
      else if p = "B/x" then some ⟨33188, 2, 60, 0, 0⟩
      else none
    content := fun _ => [] }

/-- Filesystem for the classification claim: L/L and R/L are directories. -/
def fsC4 : FS :=
  { stat? := fun p =>
      if p = "L/L" then some ⟨16877, 4096, 5, 0, 0⟩
      else if p = "R/L" then some ⟨16832, 4096, 6, 0, 0⟩
      else none
    content := fun _ => [] }

/-! The claim theorems. -/

/-- C1: the reflexivity claim fails on the code. For a regular file p,
cmp(p, p, shallow) does not return True for either shallow value: line 56
evaluates the unbound name metadata_2 (the left disjunct being false since p
is a regular file) and raises NameError. -/
theorem cmp_reflexive_raises :
    cmp fsC1 "p" "p" true [] = .error .nameError ∧
    cmp fsC1 "p" "p" false [] = .error .nameError :=
  ⟨rfl, rfl⟩

/-- C2: the chunked content comparator returns true exactly when the two
byte contents are identical (same bytes, same length), i.e. it coincides
with full-buffer equality for contents of any size. -/
theorem do_cmp_matches_full_buffer (bytes_1 bytes_2 : List Nat) :
    _do_cmp bytes_1 bytes_2 = decide (bytes_1 = bytes_2) :=
  do_cmp_full_buffer_aux bytes_1.length bytes_1 bytes_2 (Nat.le_refl _)

/-- C3: the claimed cache behaviour is unreachable. Every call of cmp either
raises OSError (a stat failed), raises NameError (both stats succeeded and
the first file is regular, so line 56 evaluates the unbound metadata_2), or
returns False with the cache unchanged (first file not regular). The cache
code of lines 62-67 never runs, so no compare call ever inserts a cache
entry and the populate-then-clear bound cannot be observed. -/
theorem cmp_never_touches_cache (fs : FS) (f0 f1 : String) (shallow : Bool)
    (cache : Cache) :
    cmp fs f0 f1 shallow cache = .error .osError ∨
    cmp fs f0 f1 shallow cache = .error .nameError ∨
    cmp fs f0 f1 shallow cache = .ok (false, cache) := by
  unfold cmp
  cases fs.stat? f0 with
  | none => exact Or.inl rfl
  | some s0 =>
    cases fs.stat? f1 with
    | none => exact Or.inl rfl
    | some s1 =>
      by_cases hreg : (_metadata s0).1 ≠ S_IFREG
      · refine Or.inr (Or.inr ?_)
        simp only [if_pos hreg]
      · refine Or.inr (Or.inl ?_)
        simp only [if_neg hreg]

/-- C4: classification into exactly one common bucket fails. With left
directory L and right directory R where entry L is a directory on both
sides, common_dirs yields L (it checks only the left side) and common_funny
also yields L (its elif chain takes the branch not S_ISREG(a_type) for two
equal directory types), so the same name lands in two buckets. -/
theorem common_classification_not_disjoint :
    common_dirs fsC4 (fun s => s) "L" "R" = .ok ["L"] ∧
    common_funny fsC4 (fun s => s) "L" "R" = .ok ["L"] :=
  ⟨rfl, rfl⟩

/-- C5: the batch comparator never produces its buckets. On the first common
name the body of cmpfiles evaluates result[_cmp(...)] = x with result a
tuple: when both files are regular the NameError from cmp escapes the
except OSError clause of _cmp and propagates; when the stat fails _cmp
returns 2 but the tuple item assignment raises TypeError. Either way an
error propagates to the caller instead of a funny-bucket entry. -/
theorem cmpfiles_raises_on_first_name :
    cmpfiles fsC5 "A" "B" ["x"] false [] = .error .nameError ∧
    cmpfiles fsC5 "A" "B" ["y"] false [] = .error .typeError :=
  ⟨rfl, rfl⟩

/-- C6: non-regular exclusion holds only for the first argument. When the
non-regular path d is first, cmp returns False as claimed; but when the
regular file f is first and d second, line 56 raises NameError instead of
returning False. -/
theorem cmp_nonregular_partial :
    cmp fsC6 "d" "f" true [] = .ok (false, []) ∧
    cmp fsC6 "d" "f" false [] = .ok (false, []) ∧
    cmp fsC6 "f" "d" true [] = .error .nameError ∧
    cmp fsC6 "f" "d" false [] = .error .nameError :=
  ⟨rfl, rfl, rfl, rfl⟩

/-- C7: the shallow fast path is unreachable. The two files a and b have
identical stat signatures (equal S_IFMT, size and mtime), yet
cmp(a, b, True) raises NameError at line 56 instead of returning True. -/
theorem cmp_shallow_fastpath_raises :
    _metadata ⟨33188, 2, 77, 0, 0⟩ = _metadata ⟨33261, 2, 77, 1, 1⟩ ∧
    cmp fsC7 "a" "b" true [] = .error .nameError :=
  ⟨rfl, rfl⟩

/-- C8: cmp propagates a stat failure on either input path as an OSError to
the caller; no boolean result is produced. -/
theorem cmp_propagates_stat_error (fs : FS) (f0 f1 : String) (shallow : Bool)
    (cache : Cache) (h : fs.stat? f0 = none ∨ fs.stat? f1 = none) :
    cmp fs f0 f1 shallow cache = .error .osError := by
  unfold cmp
  cases hf0 : fs.stat? f0 with
  | none => rfl
  | some s0 =>
    rcases h with h | h
    · rw [hf0] at h; exact absurd h (by simp)
    · rw [h]

/-- Witness for C8: on a filesystem where stat fails for every path, cmp of
two paths yields OSError. -/
theorem cmp_propagates_stat_error_witness :
    fsC8.stat? "gone" = none ∧ cmp fsC8 "gone" "x" true [] = .error .osError :=
  ⟨rfl, cmp_propagates_stat_error fsC8 "gone" "x" true [] (Or.inl rfl)⟩

/-- C9: common_names does not compute the common names. With the identity
normalization, listings A-side ["A"] and B-side ["b"] share no name, yet
common_names yields ["A"]: the listings are zipped positionally and the
membership test b in a compares a 2-tuple against strings, which is always
false, so the normalized left name at each shared position is yielded
regardless of the right listing. -/
theorem common_names_not_common :
    common_names (fun s => s) ["A"] ["b"] = ["A"] :=
  rfl

/-- C10: the stat signature depends only on S_IFMT(st_mode), st_size and
st_mtime; stat results agreeing on those three are mapped to equal
signatures whatever their permission bits or ownership fields. -/
theorem metadata_ignores_permissions (s_0 s_1 : StatResult)
    (hmode : S_IFMT s_0.st_mode = S_IFMT s_1.st_mode)
    (hsize : s_0.st_size = s_1.st_size)
    (hmtime : s_0.st_mtime = s_1.st_mtime) :
    _metadata s_0 = _metadata s_1 := by
  unfold _metadata
  rw [hmode, hsize, hmtime]

/-- Witness for C10: modes 33188 (0o100644) and 33261 (0o100755) differ in
permission bits only, uid and gid differ, yet the signatures are equal. -/
theorem metadata_ignores_permissions_witness :
    S_IFMT 33188 = S_IFMT 33261 ∧
    _metadata ⟨33188, 5, 99, 0, 0⟩ = _metadata ⟨33261, 5, 99, 1000, 1000⟩ :=
  ⟨rfl, metadata_ignores_permissions ⟨33188, 5, 99, 0, 0⟩
    ⟨33261, 5, 99, 1000, 1000⟩ rfl rfl rfl⟩

end GenFilecmp
